import Mathlib

/-!
Verification of the Tripaneer booking-manager core logic.

The definitions below are a shallow embedding of the pure data-handling
parts of the program (`web3.py`, with `calculate_nights` / `determine_hostel`
duplicated in `app.py`): date parsing in the fixed `%Y-%b-%d` format,
nights calculation, hostel classification, record normalization for scraped
and manual bookings, JSON load/merge behaviour, statistics, current-guest
grouping and the occupancy report.  External collaborators (HTTP, DOM,
rendering, byte-level file I/O) are modelled as explicit inputs.
-/

set_option maxRecDepth 4096

/-- A calendar date as produced by Python's `datetime.date`. -/
structure PyDate where
  year : Nat
  month : Nat
  day : Nat
deriving DecidableEq, Repr

/-- Gregorian leap-year rule (as used by Python's `datetime`). -/
def isLeap (y : Nat) : Bool :=
  y % 4 == 0 && (y % 100 != 0 || y % 400 == 0)

/-- Number of days in a month of a given year. -/
def daysInMonth (y m : Nat) : Nat :=
  if m == 2 then (if isLeap y then 29 else 28)
  else if m == 4 || m == 6 || m == 9 || m == 11 then 30
  else 31

/-- Days in year `y` before the first day of month `m`. -/
def daysBeforeMonth (y m : Nat) : Nat :=
  ((List.range (m - 1)).map (fun i => daysInMonth y (i + 1))).sum

/-- Proleptic-Gregorian ordinal of a date, day 1 = Jan 1 of year 1;
this is Python's `date.toordinal`, the basis of date subtraction and
comparison for the valid dates handled by the program. -/
def toOrdinal (d : PyDate) : Nat :=
  365 * (d.year - 1) + (d.year - 1) / 4 + (d.year - 1) / 400 - (d.year - 1) / 100
    + daysBeforeMonth d.year d.month + d.day

/-- Python date comparison `a <= b` (equivalent to ordinal comparison on
valid dates). -/
def dateLE (a b : PyDate) : Bool :=
  toOrdinal a ≤ toOrdinal b

/-- Python date subtraction `(b - a).days`. -/
def dateDiff (b a : PyDate) : Int :=
  (toOrdinal b : Int) - (toOrdinal a : Int)

/-- English month abbreviation used by `%b` (C locale). -/
def monthAbbrev : Nat → String
  | 1 => "Jan" | 2 => "Feb" | 3 => "Mar" | 4 => "Apr"
  | 5 => "May" | 6 => "Jun" | 7 => "Jul" | 8 => "Aug"
  | 9 => "Sep" | 10 => "Oct" | 11 => "Nov" | 12 => "Dec"
  | _ => ""

/-- Two-digit zero padding used by `%d`. -/
def pad2 (n : Nat) : String :=
  if n < 10 then "0" ++ toString n else toString n

/-- Python `date.strftime("%Y-%b-%d")` for the 4-digit years the program
handles. -/
def formatDate (d : PyDate) : String :=
  toString d.year ++ "-" ++ monthAbbrev d.month ++ "-" ++ pad2 d.day

/-- Split a character list at every `'-'` (the literal separators of the
`%Y-%b-%d` pattern). -/
def splitDash : List Char → List (List Char)
  | [] => [[]]
  | '-' :: rest => [] :: splitDash rest
  | c :: rest =>
    match splitDash rest with
    | [] => [[c]]
    | g :: gs => (c :: g) :: gs

/-- All characters are ASCII digits. -/
def allDigits (l : List Char) : Bool :=
  l.all (fun c => c.isDigit)

/-- Numeric value of a digit string. -/
def digitsToNat (l : List Char) : Nat :=
  l.foldl (fun a c => a * 10 + (c.toNat - 48)) 0

/-- Month number from a lowercased 3-letter abbreviation (strptime's `%b`
matching is case-insensitive). -/
def monthFromAbbrev (l : List Char) : Option Nat :=
  if l = ['j','a','n'] then some 1
  else if l = ['f','e','b'] then some 2
  else if l = ['m','a','r'] then some 3
  else if l = ['a','p','r'] then some 4
  else if l = ['m','a','y'] then some 5
  else if l = ['j','u','n'] then some 6
  else if l = ['j','u','l'] then some 7
  else if l = ['a','u','g'] then some 8
  else if l = ['s','e','p'] then some 9
  else if l = ['o','c','t'] then some 10
  else if l = ['n','o','v'] then some 11
  else if l = ['d','e','c'] then some 12
  else none

/-- Model of `datetime.strptime(s, "%Y-%b-%d")` wrapped in the program's
try/except: `none` instead of `ValueError`/`TypeError`.  `%Y` requires
exactly 4 digits, `%b` a month abbreviation (any case), `%d` one or two
digits in `1..31`; the resulting calendar date must be valid (`datetime`
rejects e.g. Feb 30 and year 0). -/
def parse_date (s : String) : Option PyDate :=
  match splitDash s.toList with
  | [ys, ms, ds] =>
    if ys.length == 4 && allDigits ys then
      match monthFromAbbrev (ms.map Char.toLower) with
      | some m =>
        if (ds.length == 1 || ds.length == 2) && allDigits ds then
          let y := digitsToNat ys
          let d := digitsToNat ds
          if 1 ≤ y && 1 ≤ d && d ≤ daysInMonth y m then some ⟨y, m, d⟩ else none
        else none
      | none => none
    else none
  | _ => none

/-- ASCII whitespace stripped by Python's `str.strip` / `int`. -/
def isPySpace (c : Char) : Bool :=
  c == ' ' || c == '\t' || c == '\n' || c == '\r' || c == '\x0b' || c == '\x0c'

/-- Strip leading and trailing whitespace. -/
def stripChars (l : List Char) : List Char :=
  ((l.dropWhile isPySpace).reverse.dropWhile isPySpace).reverse

/-- Tail of a Python integer literal body: digits with single interior
underscores, ending in a digit. -/
def pyBodyAux : List Char → Bool
  | [] => true
  | ['_'] => false
  | '_' :: '_' :: _ => false
  | '_' :: rest => pyBodyAux rest
  | c :: rest => c.isDigit && pyBodyAux rest

/-- A valid (unsigned) Python integer literal body: nonempty, starts with a
digit, digits with single interior underscores. -/
def pyIntBody (l : List Char) : Bool :=
  match l with
  | [] => false
  | c :: _ => c.isDigit && pyBodyAux l

/-- Value of an integer body, ignoring underscores. -/
def digitsVal (l : List Char) : Nat :=
  digitsToNat (l.filter (fun c => c != '_'))

/-- Model of Python `int(s)` for strings, wrapped in try/except: strips
ASCII whitespace, allows an optional sign, digits with underscore grouping;
`none` instead of `ValueError`. -/
def pyParseInt (s : String) : Option Int :=
  match stripChars s.toList with
  | '+' :: rest => if pyIntBody rest then some (digitsVal rest : Int) else none
  | '-' :: rest => if pyIntBody rest then some (-(digitsVal rest : Int)) else none
  | l => if pyIntBody l then some (digitsVal l : Int) else none

/-- Python `str.lower()` restricted to the ASCII letters the program's
package names use. -/
def pyLower (s : String) : String :=
  String.mk (s.toList.map Char.toLower)

/-- The first list is a leading segment of the second. -/
def leadsChars : List Char → List Char → Bool
  | [], _ => true
  | _ :: _, [] => false
  | a :: as, b :: bs => a == b && leadsChars as bs

/-- Substring occurrence on character lists. -/
def occursChars (needle : List Char) : List Char → Bool
  | [] => needle.isEmpty
  | c :: t => leadsChars needle (c :: t) || occursChars needle t

/-- Python's `needle in hay` substring test. -/
def occursIn (needle hay : String) : Bool :=
  occursChars needle.toList hay.toList

/-- Python string comparison `s <= t` (lexicographic on code points),
as used by `sorted` on the departure-date keys. -/
def charListLE : List Char → List Char → Bool
  | [], _ => true
  | _ :: _, [] => false
  | a :: as, b :: bs => a < b || (a == b && charListLE as bs)

/-- Python `s <= t` on strings. -/
def strLE (s t : String) : Bool :=
  charListLE s.toList t.toList

/-- Python `str.capitalize()` for the ASCII tags `"current"`/`"upcoming"`:
first character uppercased, the rest lowercased. -/
def pyCapitalize (s : String) : String :=
  match s.toList with
  | [] => ""
  | c :: rest => String.mk (c.toUpper :: rest.map Char.toLower)

/-- The canonical booking record (`booking_data` dict of `web3.py`).
Scraped records carry no `source` key, modelled as `none`. -/
structure Booking where
  full_name : String
  package_name : String
  hostel : String
  price : String
  arrival_date : String
  departure_date : String
  number_of_nights : Int
  number_of_guests : String
  room_type : String
  conversation_link : Option String
  booking_type : String
  source : Option String
deriving DecidableEq, Repr

/-- `TripaneerScraper.calculate_nights` (`web3.py` 81-89, duplicated in
`app.py` 16-24): 0 when either date fails to parse, else
`max((departure - arrival).days, 1)`. -/
def calculate_nights (arrival_date departure_date : String) : Int :=
  match parse_date arrival_date, parse_date departure_date with
  | some arrival, some departure => max (dateDiff departure arrival) 1
  | _, _ => 0

/-- `TripaneerScraper.determine_hostel` (`web3.py` 91-97, duplicated in
`app.py` 26-32). -/
def determine_hostel (package_name : String) : String :=
  let package_name_lower := pyLower package_name
  if occursIn "7 day" package_name_lower && occursIn "taghazout" package_name_lower then
    "Taghazout"
  else
    "Tamraght"

/-- The portal base URL (`TripaneerScraper.__init__`). -/
def base_url : String := "https://office.tripaneer.com"

/-- Raw field bag of one scraped list item (`extract_bookings_from_list`,
`web3.py` 146-198).  Each field is what the corresponding DOM lookup
produced: `none` models a missing element; `fetched_guests`/`fetched_room`
model the result of the external `extract_guest_and_room_info` page fetch
for the item's conversation link (that function always returns a pair,
defaulting to `"Not found"` on any failure). -/
structure RawItem where
  customer_name : Option String
  listing_title : Option String
  inquiry_strongs : Option (List String)
  link_href : Option String
  fetched_guests : String
  fetched_room : String
deriving DecidableEq, Repr

/-- The per-item normalization of `extract_bookings_from_list`
(`web3.py` 152-198): sentinel fallbacks, positional price/arrival/departure,
nights and hostel derivation, optional guest/room fetch, capitalized
booking type, no `source` key. -/
def normalize_scraped (booking_type : String) (item : RawItem) : Booking :=
  let full_name := item.customer_name.getD "Not found"
  let package_name := item.listing_title.getD "Not found"
  let price := match item.inquiry_strongs with
    | some ss => (ss.get? 0).getD "Not found"
    | none => "Not found"
  let arrival_date := match item.inquiry_strongs with
    | some ss => (ss.get? 1).getD "Not found"
    | none => "Not found"
  let departure_date := match item.inquiry_strongs with
    | some ss => (ss.get? 2).getD "Not found"
    | none => "Not found"
  let nights := if arrival_date != "Not found" && departure_date != "Not found" then
      calculate_nights arrival_date departure_date
    else 0
  let hostel := determine_hostel package_name
  let conversation_link := item.link_href.map (fun h => base_url ++ h)
  let guests := match conversation_link with
    | some _ => item.fetched_guests
    | none => "Not available"
  let room_type := match conversation_link with
    | some _ => item.fetched_room
    | none => "Not available"
  { full_name := full_name
    package_name := package_name
    hostel := hostel
    price := price
    arrival_date := arrival_date
    departure_date := departure_date
    number_of_nights := nights
    number_of_guests := guests
    room_type := room_type
    conversation_link := conversation_link
    booking_type := pyCapitalize booking_type
    source := none }

/-- The manual-entry form inputs (`add_manual_booking_form`,
`web3.py` 512-525).  The two date pickers always yield valid dates;
`number_of_guests` has `min_value=1`. -/
structure ManualForm where
  full_name : String
  package_name : String
  arrival_date : PyDate
  departure_date : PyDate
  hostel : String
  room_type : String
  number_of_guests : Nat
  price : String
  conversation_link : String
deriving DecidableEq, Repr

/-- The submitted-branch record construction of `add_manual_booking_form`
(`web3.py` 529-556): `none` when a required text field is empty (the
`not all([...])` guard; the date values are always truthy), else the
`booking_data` dict with `nights = (departure - arrival).days` and the
date-range `booking_type` test against today. -/
def add_manual_booking (f : ManualForm) (today : PyDate) : Option Booking :=
  if f.full_name == "" || f.room_type == "" then
    none
  else
    let nights : Int := dateDiff f.departure_date f.arrival_date
    let booking_type :=
      if dateLE f.arrival_date today && dateLE today f.departure_date then "Current"
      else "Upcoming"
    some
      { full_name := f.full_name
        package_name := if f.package_name == "" then toString nights ++ "-day surf trip"
                        else f.package_name
        hostel := f.hostel
        price := f.price
        arrival_date := formatDate f.arrival_date
        departure_date := formatDate f.departure_date
        number_of_nights := nights
        number_of_guests := toString f.number_of_guests
        room_type := f.room_type
        conversation_link := some (if f.conversation_link == "" then "Not found"
                                   else f.conversation_link)
        source := some "manual"
        booking_type := booking_type }

/-- Possible outcomes of reading the bookings file, the external input of
`load_bookings_from_json` (`web3.py` 23-35): the file may be absent, the
read may fail with `IOError`, the text may fail to parse as JSON
(`JSONDecodeError`), or it holds a stored booking sequence. -/
inductive FileRead where
  | absent : FileRead
  | readError : FileRead
  | malformed : FileRead
  | ok : List Booking → FileRead
deriving DecidableEq, Repr

/-- `load_bookings_from_json` (`web3.py` 23-35): early return `[]` when the
file does not exist; `IOError` and `JSONDecodeError` are caught and yield
`[]`; otherwise the stored sequence is returned.  Totality of this function
is the "never raises past this boundary" behaviour. -/
def load_bookings_from_json : FileRead → List Booking
  | .absent => []
  | .readError => []
  | .malformed => []
  | .ok bookings => bookings

/-- The refresh-and-save merge in `main` (`web3.py` 692-701): the freshly
scraped records, then the records of the existing file whose `source` key
equals `"manual"` (`b.get('source') == 'manual'`; scraped records have no
such key). -/
def refresh_and_merge (tripaneer_bookings existing_data : List Booking) : List Booking :=
  tripaneer_bookings ++ existing_data.filter (fun b => b.source == some "manual")

/-- The four metrics of `display_booking_stats`. -/
structure BookingStats where
  total : Nat
  current_count : Nat
  upcoming_count : Nat
  total_guests : Int
deriving DecidableEq, Repr

/-- One iteration of the `total_guests` loop of `display_booking_stats`
(`web3.py` 265-271): skip the two sentinels, add the guest count when
`int()` accepts it, leave the accumulator unchanged when it raises. -/
def guests_fold_step (acc : Int) (b : Booking) : Int :=
  if b.number_of_guests != "Not found" && b.number_of_guests != "Not available" then
    match pyParseInt b.number_of_guests with
    | some n => acc + n
    | none => acc
  else acc

/-- `display_booking_stats` (`web3.py` 252-280): length, counts of the two
booking types, and the guest sum that skips the two sentinels and any
value `int()` rejects. -/
def display_booking_stats (bookings : List Booking) : BookingStats :=
  { total := bookings.length
    current_count := bookings.countP (fun b => b.booking_type == "Current")
    upcoming_count := bookings.countP (fun b => b.booking_type == "Upcoming")
    total_guests := bookings.foldl guests_fold_step 0 }

/-- Append a booking to the group of key `k`, creating the group at the end
when absent: one `defaultdict(list)[k].append(b)` step, with Python's
insertion order. -/
def addToGroup (k : String) (b : Booking) : List (String × List Booking) → List (String × List Booking)
  | [] => [(k, [b])]
  | (k', v) :: rest =>
    if k' == k then (k', v ++ [b]) :: rest
    else (k', v) :: addToGroup k b rest

/-- Left-to-right grouping loop over the bookings. -/
def groupByAux (key : Booking → String) : List Booking → List (String × List Booking) → List (String × List Booking)
  | [], acc => acc
  | b :: rest, acc => groupByAux key rest (addToGroup (key b) b acc)

/-- `defaultdict(list)` grouping of a booking list by a string key, in
insertion order. -/
def groupBy (key : Booking → String) (bookings : List Booking) : List (String × List Booking) :=
  groupByAux key bookings []

/-- The room key used by `display_current_guests_by_hostel` (`web3.py` 355):
only the sentinel `"Not found"` is replaced by `"Unknown Room"`. -/
def room_key (room_type : String) : String :=
  if room_type != "Not found" then room_type else "Unknown Room"

/-- `display_current_guests_by_hostel` (`web3.py` 336-359): filter the
`Current` bookings, group by hostel, then inside each hostel group by the
normalized room key. -/
def display_current_guests (bookings : List Booking) : List (String × List (String × List Booking)) :=
  let current_bookings := bookings.filter (fun b => b.booking_type == "Current")
  (groupBy (fun b => b.hostel) current_bookings).map
    (fun p => (p.1, groupBy (fun b => room_key b.room_type) p.2))

/-- The per-booking selection test of `display_occupancy_by_hostel`
(`web3.py` 594-612): skip when hostel or guest string is falsy, a date
fails to parse, or the guest string is a sentinel or rejected by `int()`;
keep when the `[arrival, departure]` interval meets `[start, end]`
inclusively and the hostel matches the filter (`"All"` matches any). -/
def occupancy_selected (selected_hostel : String) (start_date end_date : PyDate) (b : Booking) : Bool :=
  match parse_date b.arrival_date, parse_date b.departure_date with
  | some arrival_date, some departure_date =>
    if b.hostel == "" || b.number_of_guests == ""
        || b.number_of_guests == "Not found" || b.number_of_guests == "Not available" then
      false
    else
      match pyParseInt b.number_of_guests with
      | none => false
      | some _ =>
        dateLE arrival_date end_date && dateLE start_date departure_date
          && (selected_hostel == "All" || b.hostel == selected_hostel)
  | _, _ => false

/-- The `filtered_bookings` list of `display_occupancy_by_hostel`. -/
def occupancy_filter (bookings : List Booking) (selected_hostel : String) (start_date end_date : PyDate) : List Booking :=
  bookings.filter (occupancy_selected selected_hostel start_date end_date)

/-- Ordering used on departure buckets: Python's `sorted` on
`dict.items()` compares the pairs by their distinct string keys. -/
def bucketLE (p q : String × List Booking) : Bool :=
  strLE p.1 q.1

/-- One step of a stable insertion into a key-sorted bucket list. -/
def insertBucket (p : String × List Booking) : List (String × List Booking) → List (String × List Booking)
  | [] => [p]
  | q :: rest => if bucketLE p q then p :: q :: rest else q :: insertBucket p rest

/-- Model of Python's `sorted(d.items())` on the departure buckets: the
pairs rearranged into ascending lexicographic key order. -/
def sortBuckets (l : List (String × List Booking)) : List (String × List Booking) :=
  l.foldr insertBucket []

/-- `display_occupancy_by_hostel` after filtering (`web3.py` 619-638):
per hostel (insertion order), the guest sum and the departure buckets as
displayed — keyed by the raw `departure_date` string and iterated in
`sorted` order of that string. -/
def occupancy_report (bookings : List Booking) (selected_hostel : String) (start_date end_date : PyDate) :
    List (String × Int × List (String × List Booking)) :=
  let filtered_bookings := occupancy_filter bookings selected_hostel start_date end_date
  (groupBy (fun b => b.hostel) filtered_bookings).map
    (fun p =>
      (p.1,
       (p.2.map (fun b => (pyParseInt b.number_of_guests).getD 0)).sum,
       sortBuckets (groupBy (fun b => b.departure_date) p.2)))

/-! ## Helper lemmas -/

lemma calculate_nights_nonneg (a d : String) : 0 ≤ calculate_nights a d := by
  unfold calculate_nights
  cases parse_date a <;> cases parse_date d <;> simp

/-! ## Claim theorems -/

/-- Claim C6: for all input strings, `calculate_nights` returns 0 when either
string fails to parse in the fixed `YYYY-Mon-DD` format, and otherwise
returns `max((departure - arrival) in days, 1)`. -/
theorem calculate_nights_spec (a d : String) :
    (parse_date a = none ∨ parse_date d = none → calculate_nights a d = 0)
    ∧ (∀ x y, parse_date a = some x → parse_date d = some y →
        calculate_nights a d = max (dateDiff y x) 1) := by
  constructor
  · intro h
    unfold calculate_nights
    rcases h with h | h <;> rw [h] <;>
      first
        | rfl
        | (cases parse_date d <;> rfl)
        | (cases parse_date a <;> rfl)
  · intro x y hx hy
    unfold calculate_nights
    rw [hx, hy]

/-- Witness for C6 at concrete inputs: an unparseable arrival yields 0, and
a parsed 7-day pair yields `max(7, 1)`. -/
theorem calculate_nights_spec_witness :
    calculate_nights "Not found" "2024-Jan-05" = 0
    ∧ calculate_nights "2024-Jan-05" "2024-Jan-12" = max (dateDiff ⟨2024,1,12⟩ ⟨2024,1,5⟩) 1 := by
  constructor
  · exact (calculate_nights_spec "Not found" "2024-Jan-05").1 (Or.inl (by decide))
  · exact (calculate_nights_spec "2024-Jan-05" "2024-Jan-12").2
      ⟨2024,1,5⟩ ⟨2024,1,12⟩ (by decide) (by decide)

/-- Claim C7: `determine_hostel` returns `"Taghazout"` exactly when the
lowercased package name contains both `"7 day"` and `"taghazout"`, and
`"Tamraght"` in every other case; with the three concrete examples of the
specification. -/
theorem determine_hostel_spec (package_name : String) :
    (determine_hostel package_name = "Taghazout" ↔
      occursIn "7 day" (pyLower package_name) = true
        ∧ occursIn "taghazout" (pyLower package_name) = true)
    ∧ (determine_hostel package_name = "Taghazout"
        ∨ determine_hostel package_name = "Tamraght")
    ∧ determine_hostel "7 Day Surf Taghazout Package" = "Taghazout"
    ∧ determine_hostel "Weekend Tamraght Trip" = "Tamraght"
    ∧ determine_hostel "7 Day Essaouira Trip" = "Tamraght" := by
  refine ⟨?_, ?_, by decide, by decide, by decide⟩
  · by_cases h1 : occursIn "7 day" (pyLower package_name) = true <;>
      by_cases h2 : occursIn "taghazout" (pyLower package_name) = true <;>
      simp [determine_hostel, h1, h2]
  · by_cases h : (occursIn "7 day" (pyLower package_name)
        && occursIn "taghazout" (pyLower package_name)) = true
    · exact Or.inl (by simp [determine_hostel, h])
    · exact Or.inr (by simp [determine_hostel, h])

/-- Claim C8: loading the persisted bookings file yields `[]` when the file
is absent, unreadable or malformed JSON, and the stored sequence on a
well-formed file; the Lean function being total is the "never raises past
this boundary" behaviour of the try/except in the source. -/
theorem load_bookings_spec :
    load_bookings_from_json .absent = []
    ∧ load_bookings_from_json .readError = []
    ∧ load_bookings_from_json .malformed = []
    ∧ ∀ bookings, load_bookings_from_json (.ok bookings) = bookings :=
  ⟨rfl, rfl, rfl, fun _ => rfl⟩

/-- A freshly scraped record `A` for the C4 example. -/
def c4_fresh_a : Booking :=
  { full_name := "A", package_name := "7 Day Surf Taghazout Package",
    hostel := "Taghazout", price := "100", arrival_date := "2024-Jan-05",
    departure_date := "2024-Jan-12", number_of_nights := 7,
    number_of_guests := "2", room_type := "Dorm", conversation_link := none,
    booking_type := "Upcoming", source := none }

/-- A freshly scraped record `B` for the C4 example. -/
def c4_fresh_b : Booking :=
  { c4_fresh_a with
    full_name := "B", arrival_date := "2024-Feb-01",
    departure_date := "2024-Feb-08" }

/-- The stale scraped copy `A_old` persisted by a previous run. -/
def c4_old_a : Booking :=
  { c4_fresh_a with price := "90" }

/-- The manually entered record `M` of the C4 example. -/
def c4_manual : Booking :=
  { full_name := "M", package_name := "3-day surf trip", hostel := "Tamraght",
    price := "N/A", arrival_date := "2024-Jan-10", departure_date := "2024-Jan-13",
    number_of_nights := 3, number_of_guests := "1", room_type := "Private",
    conversation_link := some "Not found", booking_type := "Upcoming",
    source := some "manual" }

/-- Claim C4: the refresh-and-merge step saves exactly the freshly scraped
records followed by the `source = "manual"` records of the existing file, in
their original relative order (the filtered list is a sublist of the
existing one); a record is in the result exactly when it is freshly scraped
or a manual record of the existing file, so non-manual old records are
dropped and nothing is deduplicated; with the specification's
`[A, B] / [A_old, M] ↦ [A, B, M]` example. -/
theorem refresh_and_merge_spec (fresh existing : List Booking) :
    refresh_and_merge fresh existing
      = fresh ++ existing.filter (fun b => b.source == some "manual")
    ∧ List.Sublist (existing.filter (fun b => b.source == some "manual")) existing
    ∧ (∀ b, b ∈ refresh_and_merge fresh existing ↔
        b ∈ fresh ∨ (b ∈ existing ∧ b.source = some "manual"))
    ∧ refresh_and_merge [c4_fresh_a, c4_fresh_b] [c4_old_a, c4_manual]
        = [c4_fresh_a, c4_fresh_b, c4_manual] := by
  refine ⟨rfl, List.filter_sublist existing, fun b => ?_, by decide⟩
  unfold refresh_and_merge
  simp [List.mem_filter]

/-- Claim C10: when the extraction produces no records (failed fetch or not
logged in, both of which return the empty list), the merge still rewrites
the file, and the saved content is exactly the manual records of the
previous file: a record survives exactly when it was persisted with
`source = "manual"`, so every previously scraped record is removed. -/
theorem refresh_with_empty_scrape (existing : List Booking) :
    refresh_and_merge [] existing
      = existing.filter (fun b => b.source == some "manual")
    ∧ (∀ b, b ∈ refresh_and_merge [] existing ↔
        b ∈ existing ∧ b.source = some "manual")
    ∧ refresh_and_merge [] [c4_old_a, c4_manual] ≠ [c4_old_a, c4_manual] := by
  refine ⟨rfl, fun b => ?_, by decide⟩
  unfold refresh_and_merge
  simp [List.mem_filter]

lemma guests_fold_step_eq (acc : Int) (b : Booking) :
    guests_fold_step acc b = acc + (pyParseInt b.number_of_guests).getD 0 := by
  unfold guests_fold_step
  by_cases h1 : b.number_of_guests = "Not found"
  · simp [h1]
    decide
  · by_cases h2 : b.number_of_guests = "Not available"
    · simp [h2]
      decide
    · have hcond : (b.number_of_guests != "Not found"
          && b.number_of_guests != "Not available") = true := by
        simp [bne_iff_ne, h1, h2]
      rw [hcond]
      cases hp : pyParseInt b.number_of_guests <;> simp [hp]

lemma foldl_guests (bookings : List Booking) (acc : Int) :
    bookings.foldl guests_fold_step acc
      = acc + (bookings.map (fun b => (pyParseInt b.number_of_guests).getD 0)).sum := by
  induction bookings generalizing acc with
  | nil => simp
  | cons b rest ih =>
    rw [List.foldl_cons, guests_fold_step_eq, ih]
    simp [add_assoc]

lemma sum_getD_eq_sum_filterMap (bookings : List Booking) :
    (bookings.map (fun b => (pyParseInt b.number_of_guests).getD 0)).sum
      = (bookings.filterMap (fun b => pyParseInt b.number_of_guests)).sum := by
  induction bookings with
  | nil => simp
  | cons b rest ih =>
    cases hp : pyParseInt b.number_of_guests <;> simp [hp, ih]

/-- A booking whose only relevant field is the guest-count string, for the
C9 example. -/
def c9_guest_booking (g : String) : Booking :=
  { full_name := "G", package_name := "P", hostel := "Tamraght", price := "1",
    arrival_date := "2024-Jan-05", departure_date := "2024-Jan-06",
    number_of_nights := 1, number_of_guests := g, room_type := "Dorm",
    conversation_link := none, booking_type := "Current", source := none }

/-- Claim C9: the statistics report the sequence length, the counts of
`Current` and `Upcoming` records, and the sum of the guest counts that
`int()` accepts, skipping sentinels and non-numeric values; with the
specification's `"2" / "Not found" / "3" ↦ 5` example. -/
theorem booking_stats_spec (bookings : List Booking) :
    (display_booking_stats bookings).total = bookings.length
    ∧ (display_booking_stats bookings).current_count
        = (bookings.filter (fun b => b.booking_type == "Current")).length
    ∧ (display_booking_stats bookings).upcoming_count
        = (bookings.filter (fun b => b.booking_type == "Upcoming")).length
    ∧ (display_booking_stats bookings).total_guests
        = (bookings.filterMap (fun b => pyParseInt b.number_of_guests)).sum
    ∧ (display_booking_stats
        [c9_guest_booking "2", c9_guest_booking "Not found", c9_guest_booking "3"]).total_guests
        = 5 := by
  refine ⟨rfl, ?_, ?_, ?_, by decide⟩
  · simp [display_booking_stats, List.countP_eq_length_filter]
  · simp [display_booking_stats, List.countP_eq_length_filter]
  · show bookings.foldl guests_fold_step 0 = _
    rw [foldl_guests, sum_getD_eq_sum_filterMap]
    simp

lemma parse_not_found : parse_date "Not found" = none := by decide

/-- Claim C1 (amended): a booking built by the scrape path always has
`number_of_nights ≥ 0`, equal to `max(departure − arrival in days, 1)`
whenever both stored date strings parse; a booking built by the
manual-entry form instead stores `(departure − arrival).days` with no
flooring, so its `number_of_nights` can be 0 or negative. -/
theorem nights_of_created_bookings :
    (∀ bt item, 0 ≤ (normalize_scraped bt item).number_of_nights
      ∧ (∀ a d, parse_date (normalize_scraped bt item).arrival_date = some a →
          parse_date (normalize_scraped bt item).departure_date = some d →
          (normalize_scraped bt item).number_of_nights = max (dateDiff d a) 1))
    ∧ (∀ f today b, add_manual_booking f today = some b →
        b.number_of_nights = dateDiff f.departure_date f.arrival_date) := by
  constructor
  · intro bt item
    have hnight : (normalize_scraped bt item).number_of_nights
        = (if (normalize_scraped bt item).arrival_date != "Not found"
              && (normalize_scraped bt item).departure_date != "Not found" then
            calculate_nights (normalize_scraped bt item).arrival_date
              (normalize_scraped bt item).departure_date
           else 0) := rfl
    constructor
    · rw [hnight]
      split
      · exact calculate_nights_nonneg _ _
      · exact le_refl 0
    · intro a d ha hd
      rw [hnight]
      have hA : (normalize_scraped bt item).arrival_date ≠ "Not found" := by
        intro hnf
        rw [hnf, parse_not_found] at ha
        exact Option.noConfusion ha
      have hD : (normalize_scraped bt item).departure_date ≠ "Not found" := by
        intro hnf
        rw [hnf, parse_not_found] at hd
        exact Option.noConfusion hd
      rw [if_pos (by simp [bne_iff_ne, hA, hD])]
      unfold calculate_nights
      rw [ha, hd]
  · intro f today b h
    unfold add_manual_booking at h
    split at h
    · exact Option.noConfusion h
    · cases Option.some.inj h
      rfl

/-- A concrete scraped list item for the C1 witness. -/
def c1_scraped_item : RawItem :=
  { customer_name := some "Bob",
    listing_title := some "7 Day Surf Taghazout Package",
    inquiry_strongs := some ["100", "2024-Jan-05", "2024-Jan-12"],
    link_href := none, fetched_guests := "2", fetched_room := "Dorm" }

/-- A manual-entry submission whose departure precedes its arrival. -/
def c1_manual_form : ManualForm :=
  { full_name := "Alice", package_name := "", arrival_date := ⟨2024,1,5⟩,
    departure_date := ⟨2024,1,3⟩, hostel := "Taghazout", room_type := "Dorm",
    number_of_guests := 1, price := "N/A", conversation_link := "" }

/-- The booking the manual-entry form saves for `c1_manual_form`. -/
def c1_manual_booking : Booking :=
  { full_name := "Alice", package_name := "-2-day surf trip",
    hostel := "Taghazout", price := "N/A", arrival_date := "2024-Jan-05",
    departure_date := "2024-Jan-03", number_of_nights := -2,
    number_of_guests := "1", room_type := "Dorm",
    conversation_link := some "Not found", booking_type := "Upcoming",
    source := some "manual" }

/-- Witness for the amended C1 at concrete inputs: the scraped example has
nights `max(7, 1)` and the reversed manual example stores `-2`. -/
theorem nights_of_created_bookings_witness :
    0 ≤ (normalize_scraped "current" c1_scraped_item).number_of_nights
    ∧ (normalize_scraped "current" c1_scraped_item).number_of_nights
        = max (dateDiff ⟨2024,1,12⟩ ⟨2024,1,5⟩) 1
    ∧ c1_manual_booking.number_of_nights
        = dateDiff c1_manual_form.departure_date c1_manual_form.arrival_date :=
  ⟨(nights_of_created_bookings.1 "current" c1_scraped_item).1,
   (nights_of_created_bookings.1 "current" c1_scraped_item).2
     ⟨2024,1,5⟩ ⟨2024,1,12⟩ (by decide) (by decide),
   nights_of_created_bookings.2 c1_manual_form ⟨2024,1,1⟩ c1_manual_booking (by decide)⟩

/-- Counterexample to C1 as stated: the manual-entry form, given arrival
`2024-Jan-05` and departure `2024-Jan-03`, creates a booking whose stored
dates both parse but whose `number_of_nights` is `-2`, which is negative
and differs from `max(departure − arrival, 1) = 1`. -/
theorem nights_invariant_fails_for_manual :
    add_manual_booking c1_manual_form ⟨2024,1,1⟩ = some c1_manual_booking
    ∧ parse_date c1_manual_booking.arrival_date = some ⟨2024,1,5⟩
    ∧ parse_date c1_manual_booking.departure_date = some ⟨2024,1,3⟩
    ∧ c1_manual_booking.number_of_nights < 0
    ∧ c1_manual_booking.number_of_nights ≠ max (dateDiff ⟨2024,1,3⟩ ⟨2024,1,5⟩) 1 := by
  refine ⟨by decide, by decide, by decide, by decide, by decide⟩

lemma pyParseInt_empty : pyParseInt "" = none := by decide

lemma occupancy_selected_iff (selected_hostel : String) (start_date end_date : PyDate)
    (b : Booking) (hhostel : b.hostel ≠ "") :
    occupancy_selected selected_hostel start_date end_date b = true ↔
      (∃ a, parse_date b.arrival_date = some a ∧ dateLE a end_date = true)
      ∧ (∃ d, parse_date b.departure_date = some d ∧ dateLE start_date d = true)
      ∧ b.number_of_guests ≠ "Not found" ∧ b.number_of_guests ≠ "Not available"
      ∧ (∃ n, pyParseInt b.number_of_guests = some n)
      ∧ (selected_hostel = "All" ∨ b.hostel = selected_hostel) := by
  unfold occupancy_selected
  cases ha : parse_date b.arrival_date with
  | none => simp [ha]
  | some a =>
    cases hd : parse_date b.departure_date with
    | none => simp [hd]
    | some d =>
      by_cases hg1 : b.number_of_guests = "Not found"
      · simp [hg1]
      · by_cases hg2 : b.number_of_guests = "Not available"
        · simp [hg2]
        · by_cases hg0 : b.number_of_guests = ""
          · simp [hg0, pyParseInt_empty]
          · cases hp : pyParseInt b.number_of_guests with
            | none => simp [hhostel, hg0, hg1, hg2, hp]
            | some n => simp [hhostel, hg0, hg1, hg2, hp, and_assoc]

/-- Claim C2: with `start ≤ end` as precondition, the occupancy query
keeps a booking of a well-formed hostel whose dates both parse, whose
interval `[arrival, departure]` overlaps `[start, end]` inclusively
(`arrival ≤ end` and `departure ≥ start`), whose hostel matches the filter
(`"All"` matches any), and whose guest string is no sentinel and is
accepted by `int()` — and only such bookings. -/
theorem occupancy_selection_spec (bookings : List Booking) (selected_hostel : String)
    (start_date end_date : PyDate) (b : Booking)
    (hrange : dateLE start_date end_date = true)
    (hhostel : b.hostel = "Taghazout" ∨ b.hostel = "Tamraght") :
    b ∈ occupancy_filter bookings selected_hostel start_date end_date ↔
      b ∈ bookings
      ∧ (∃ a, parse_date b.arrival_date = some a ∧ dateLE a end_date = true)
      ∧ (∃ d, parse_date b.departure_date = some d ∧ dateLE start_date d = true)
      ∧ b.number_of_guests ≠ "Not found" ∧ b.number_of_guests ≠ "Not available"
      ∧ (∃ n, pyParseInt b.number_of_guests = some n)
      ∧ (selected_hostel = "All" ∨ b.hostel = selected_hostel) := by
  have hne : b.hostel ≠ "" := by
    rcases hhostel with h | h <;> rw [h] <;> decide
  rw [occupancy_filter, List.mem_filter,
    occupancy_selected_iff selected_hostel start_date end_date b hne]

/-- The included booking of the specification's C2 example. -/
def c2_included : Booking :=
  { full_name := "In", package_name := "P", hostel := "Tamraght",
    price := "1", arrival_date := "2024-Jan-15", departure_date := "2024-Feb-02",
    number_of_nights := 18, number_of_guests := "2", room_type := "Dorm",
    conversation_link := none, booking_type := "Current", source := none }

/-- The excluded booking of the specification's C2 example (departed before
the range begins). -/
def c2_excluded : Booking :=
  { full_name := "Out", package_name := "P", hostel := "Tamraght",
    price := "1", arrival_date := "2023-Dec-27", departure_date := "2023-Dec-31",
    number_of_nights := 4, number_of_guests := "2", room_type := "Dorm",
    conversation_link := none, booking_type := "Current", source := none }

/-- Witness for C2 on the specification's example range Jan 1 – Jan 31 2024:
the booking departing Feb 2 overlaps and is selected; the booking departing
Dec 31 2023 is not. -/
theorem occupancy_selection_spec_witness :
    c2_included ∈ occupancy_filter [c2_included, c2_excluded] "All" ⟨2024,1,1⟩ ⟨2024,1,31⟩
    ∧ c2_excluded ∉ occupancy_filter [c2_included, c2_excluded] "All" ⟨2024,1,1⟩ ⟨2024,1,31⟩ := by
  constructor
  · exact (occupancy_selection_spec [c2_included, c2_excluded] "All"
      ⟨2024,1,1⟩ ⟨2024,1,31⟩ c2_included (by decide) (Or.inr rfl)).mpr
      ⟨by decide,
       ⟨⟨2024,1,15⟩, by decide, by decide⟩,
       ⟨⟨2024,2,2⟩, by decide, by decide⟩,
       by decide, by decide,
       ⟨2, by decide⟩,
       Or.inl rfl⟩
  · intro hmem
    obtain ⟨-, -, ⟨d, hd, hled⟩, -⟩ :=
      (occupancy_selection_spec [c2_included, c2_excluded] "All"
        ⟨2024,1,1⟩ ⟨2024,1,31⟩ c2_excluded (by decide) (Or.inr rfl)).mp hmem
    have hparse : parse_date c2_excluded.departure_date = some ⟨2023,12,31⟩ := by decide
    rw [hparse] at hd
    cases Option.some.inj hd
    exact absurd hled (by decide)

lemma charListLE_total : ∀ l1 l2 : List Char,
    charListLE l1 l2 = true ∨ charListLE l2 l1 = true := by
  intro l1
  induction l1 with
  | nil => intro l2; left; rfl
  | cons a as ih =>
    intro l2
    cases l2 with
    | nil => right; rfl
    | cons b bs =>
      rcases lt_trichotomy a b with h | h | h
      · left; simp [charListLE, h]
      · subst h
        rcases ih bs with h' | h'
        · left; simp [charListLE, h']
        · right; simp [charListLE, h']
      · right; simp [charListLE, h]

lemma charListLE_trans : ∀ l1 l2 l3 : List Char, charListLE l1 l2 = true →
    charListLE l2 l3 = true → charListLE l1 l3 = true := by
  intro l1
  induction l1 with
  | nil => intros; rfl
  | cons a as ih =>
    intro l2 l3 h12 h23
    cases l2 with
    | nil => simp [charListLE] at h12
    | cons b bs =>
      cases l3 with
      | nil => simp [charListLE] at h23
      | cons c cs =>
        simp only [charListLE, Bool.or_eq_true, Bool.and_eq_true,
          decide_eq_true_eq, beq_iff_eq] at h12 h23 ⊢
        rcases h12 with h12 | ⟨rfl, h12⟩
        · rcases h23 with h23 | ⟨rfl, h23⟩
          · exact Or.inl (lt_trans h12 h23)
          · exact Or.inl h12
        · rcases h23 with h23 | ⟨rfl, h23⟩
          · exact Or.inl h23
          · exact Or.inr ⟨rfl, ih bs cs h12 h23⟩

lemma bucketLE_total (p q : String × List Booking) :
    bucketLE p q = true ∨ bucketLE q p = true :=
  charListLE_total p.1.toList q.1.toList

lemma bucketLE_trans {p q r : String × List Booking}
    (h1 : bucketLE p q = true) (h2 : bucketLE q r = true) : bucketLE p r = true :=
  charListLE_trans _ _ _ h1 h2

lemma mem_insertBucket {x p : String × List Booking} :
    ∀ {l : List (String × List Booking)}, x ∈ insertBucket p l ↔ x = p ∨ x ∈ l := by
  intro l
  induction l with
  | nil => simp [insertBucket]
  | cons q rest ih =>
    unfold insertBucket
    by_cases h : bucketLE p q = true
    · rw [if_pos h]
      simp
    · rw [if_neg h]
      simp [ih]
      tauto

lemma pairwise_insertBucket {p : String × List Booking}
    {l : List (String × List Booking)}
    (hl : l.Pairwise (fun x y => bucketLE x y = true)) :
    (insertBucket p l).Pairwise (fun x y => bucketLE x y = true) := by
  induction l with
  | nil => simp [insertBucket]
  | cons q rest ih =>
    rw [List.pairwise_cons] at hl
    obtain ⟨hq, hrest⟩ := hl
    unfold insertBucket
    by_cases h : bucketLE p q = true
    · rw [if_pos h, List.pairwise_cons]
      refine ⟨?_, List.pairwise_cons.mpr ⟨hq, hrest⟩⟩
      intro y hy
      rcases List.mem_cons.mp hy with rfl | hy
      · exact h
      · exact bucketLE_trans h (hq y hy)
    · rw [if_neg h, List.pairwise_cons]
      refine ⟨?_, ih hrest⟩
      intro y hy
      rcases mem_insertBucket.mp hy with h' | hy
      · rw [h']
        rcases bucketLE_total p q with h1 | h1
        · exact absurd h1 h
        · exact h1
      · exact hq y hy

lemma pairwise_sortBuckets (l : List (String × List Booking)) :
    (sortBuckets l).Pairwise (fun x y => bucketLE x y = true) := by
  induction l with
  | nil => simp [sortBuckets]
  | cons p rest ih => exact pairwise_insertBucket ih

/-- Claim C3 (amended): within each hostel of the occupancy report, the
departure buckets are presented in ascending lexicographic (code-point)
order of the raw departure-date string — the order of Python's `sorted` on
the dict keys — which does not coincide with chronological order across
months, because month abbreviations compare alphabetically. -/
theorem occupancy_departures_sorted_lex (bookings : List Booking)
    (selected_hostel : String) (start_date end_date : PyDate)
    (hostel : String) (guest_sum : Int) (buckets : List (String × List Booking))
    (hmem : (hostel, guest_sum, buckets)
      ∈ occupancy_report bookings selected_hostel start_date end_date) :
    buckets.Pairwise (fun x y => strLE x.1 y.1 = true) := by
  unfold occupancy_report at hmem
  simp only [List.mem_map] at hmem
  obtain ⟨q, hq, heq⟩ := hmem
  have hb : buckets = sortBuckets (groupBy (fun b => b.departure_date) q.2) := by
    have := congrArg (fun t => t.2.2) heq
    simpa using this.symm
  rw [hb]
  exact pairwise_sortBuckets _

/-- The booking departing Feb 1 2024 for the C3 example. -/
def c3_feb_booking : Booking :=
  { full_name := "F", package_name := "P", hostel := "Tamraght",
    price := "1", arrival_date := "2024-Jan-20", departure_date := "2024-Feb-01",
    number_of_nights := 12, number_of_guests := "2", room_type := "Dorm",
    conversation_link := none, booking_type := "Current", source := none }

/-- The booking departing Apr 5 2024 for the C3 example. -/
def c3_apr_booking : Booking :=
  { full_name := "G", package_name := "P", hostel := "Tamraght",
    price := "1", arrival_date := "2024-Jan-21", departure_date := "2024-Apr-05",
    number_of_nights := 75, number_of_guests := "3", room_type := "Dorm",
    conversation_link := none, booking_type := "Current", source := none }

/-- Witness for the amended C3 at a concrete report: the Tamraght bucket
list produced for the Feb/Apr pair is pairwise lexicographically
ascending. -/
theorem occupancy_departures_sorted_lex_witness :
    List.Pairwise (fun x y => strLE x.1 y.1 = true)
      [("2024-Apr-05", [c3_apr_booking]), ("2024-Feb-01", [c3_feb_booking])] :=
  occupancy_departures_sorted_lex [c3_feb_booking, c3_apr_booking] "All"
    ⟨2024,1,1⟩ ⟨2024,12,31⟩ "Tamraght" 5
    [("2024-Apr-05", [c3_apr_booking]), ("2024-Feb-01", [c3_feb_booking])]
    (by decide)

/-- Counterexample to C3 as stated: for two bookings departing Feb 1 and
Apr 5 2024, the report presents the April bucket before the February one
(string sort puts `"2024-Apr-05"` first since `'A' < 'F'`), although
Feb 1 is chronologically earlier. -/
theorem occupancy_departures_not_chronological :
    (occupancy_report [c3_feb_booking, c3_apr_booking] "All"
        ⟨2024,1,1⟩ ⟨2024,12,31⟩).map (fun p => p.2.2.map Prod.fst)
      = [["2024-Apr-05", "2024-Feb-01"]]
    ∧ parse_date "2024-Feb-01" = some ⟨2024,2,1⟩
    ∧ parse_date "2024-Apr-05" = some ⟨2024,4,5⟩
    ∧ toOrdinal ⟨2024,2,1⟩ < toOrdinal ⟨2024,4,5⟩ := by
  refine ⟨by decide, by decide, by decide, by decide⟩

lemma addToGroup_sound {acc : List (String × List Booking)} {k0 k : String}
    {b x : Booking} {grp : List Booking}
    (h : (k, grp) ∈ addToGroup k0 b acc) (hx : x ∈ grp) :
    (x = b ∧ k = k0) ∨ ∃ grp', (k, grp') ∈ acc ∧ x ∈ grp' := by
  induction acc with
  | nil =>
    simp [addToGroup] at h
    obtain ⟨rfl, rfl⟩ := h
    simp at hx
    exact Or.inl ⟨hx, rfl⟩
  | cons q rest ih =>
    obtain ⟨k', v⟩ := q
    by_cases hk : (k' == k0) = true
    · rw [show addToGroup k0 b ((k', v) :: rest) = (k', v ++ [b]) :: rest by
        simp [addToGroup, hk]] at h
      rcases List.mem_cons.mp h with h | h
      · obtain ⟨rfl, rfl⟩ := Prod.mk.injEq .. ▸ h
        rcases List.mem_append.mp hx with hx | hx
        · exact Or.inr ⟨v, List.mem_cons_self _ _, hx⟩
        · simp at hx
          exact Or.inl ⟨hx, (beq_iff_eq ..).mp hk⟩
      · exact Or.inr ⟨grp, List.mem_cons_of_mem _ h, hx⟩
    · rw [show addToGroup k0 b ((k', v) :: rest) = (k', v) :: addToGroup k0 b rest by
        simp [addToGroup, hk]] at h
      rcases List.mem_cons.mp h with h | h
      · obtain ⟨rfl, rfl⟩ := Prod.mk.injEq .. ▸ h
        exact Or.inr ⟨grp, List.mem_cons_self _ _, hx⟩
      · rcases ih h with hl | ⟨grp', hg, hx'⟩
        · exact Or.inl hl
        · exact Or.inr ⟨grp', List.mem_cons_of_mem _ hg, hx'⟩

lemma addToGroup_self (acc : List (String × List Booking)) (k0 : String) (b : Booking) :
    ∃ grp, (k0, grp) ∈ addToGroup k0 b acc ∧ b ∈ grp := by
  induction acc with
  | nil => exact ⟨[b], by simp [addToGroup], by simp⟩
  | cons q rest ih =>
    obtain ⟨k', v⟩ := q
    by_cases hk : (k' == k0) = true
    · refine ⟨v ++ [b], ?_, by simp⟩
      rw [show addToGroup k0 b ((k', v) :: rest) = (k', v ++ [b]) :: rest by
        simp [addToGroup, hk]]
      rw [(beq_iff_eq ..).mp hk]
      exact List.mem_cons_self _ _
    · obtain ⟨grp, hg, hb⟩ := ih
      refine ⟨grp, ?_, hb⟩
      rw [show addToGroup k0 b ((k', v) :: rest) = (k', v) :: addToGroup k0 b rest by
        simp [addToGroup, hk]]
      exact List.mem_cons_of_mem _ hg

lemma addToGroup_preserves {acc : List (String × List Booking)} {k : String}
    {grp : List Booking} {x : Booking} (k0 : String) (b : Booking)
    (h : (k, grp) ∈ acc) (hx : x ∈ grp) :
    ∃ grp', (k, grp') ∈ addToGroup k0 b acc ∧ x ∈ grp' := by
  induction acc with
  | nil => simp at h
  | cons q rest ih =>
    obtain ⟨k', v⟩ := q
    by_cases hk : (k' == k0) = true
    · rw [show addToGroup k0 b ((k', v) :: rest) = (k', v ++ [b]) :: rest by
        simp [addToGroup, hk]]
      rcases List.mem_cons.mp h with h | h
      · obtain ⟨rfl, rfl⟩ := Prod.mk.injEq .. ▸ h
        exact ⟨grp ++ [b], List.mem_cons_self _ _, List.mem_append.mpr (Or.inl hx)⟩
      · exact ⟨grp, List.mem_cons_of_mem _ h, hx⟩
    · rw [show addToGroup k0 b ((k', v) :: rest) = (k', v) :: addToGroup k0 b rest by
        simp [addToGroup, hk]]
      rcases List.mem_cons.mp h with h | h
      · obtain ⟨rfl, rfl⟩ := Prod.mk.injEq .. ▸ h
        exact ⟨grp, List.mem_cons_self _ _, hx⟩
      · obtain ⟨grp', hg, hx'⟩ := ih h
        exact ⟨grp', List.mem_cons_of_mem _ hg, hx'⟩

lemma groupByAux_sound {key : Booking → String} :
    ∀ {bs : List Booking} {acc : List (String × List Booking)} {k : String}
      {grp : List Booking} {x : Booking},
      (k, grp) ∈ groupByAux key bs acc → x ∈ grp →
      (x ∈ bs ∧ key x = k) ∨ ∃ grp', (k, grp') ∈ acc ∧ x ∈ grp' := by
  intro bs
  induction bs with
  | nil =>
    intro acc k grp x h hx
    exact Or.inr ⟨grp, h, hx⟩
  | cons b rest ih =>
    intro acc k grp x h hx
    rcases ih h hx with ⟨hmem, hkey⟩ | ⟨grp', hg, hx'⟩
    · exact Or.inl ⟨List.mem_cons_of_mem _ hmem, hkey⟩
    · rcases addToGroup_sound hg hx' with ⟨rfl, rfl⟩ | ⟨grp2, hg2, hx2⟩
      · exact Or.inl ⟨List.mem_cons_self _ _, rfl⟩
      · exact Or.inr ⟨grp2, hg2, hx2⟩

lemma groupByAux_preserves {key : Booking → String} :
    ∀ (bs : List Booking) {acc : List (String × List Booking)} {k : String}
      {grp : List Booking} {x : Booking},
      (k, grp) ∈ acc → x ∈ grp →
      ∃ grp', (k, grp') ∈ groupByAux key bs acc ∧ x ∈ grp' := by
  intro bs
  induction bs with
  | nil =>
    intro acc k grp x h hx
    exact ⟨grp, h, hx⟩
  | cons b rest ih =>
    intro acc k grp x h hx
    obtain ⟨grp', hg, hx'⟩ := addToGroup_preserves (key b) b h hx
    exact ih hg hx'

lemma groupByAux_complete {key : Booking → String} :
    ∀ {bs : List Booking} (acc : List (String × List Booking)) {x : Booking},
      x ∈ bs →
      ∃ grp, (key x, grp) ∈ groupByAux key bs acc ∧ x ∈ grp := by
  intro bs
  induction bs with
  | nil =>
    intro acc x h
    simp at h
  | cons b rest ih =>
    intro acc x h
    rcases List.mem_cons.mp h with rfl | h
    · obtain ⟨grp, hg, hb⟩ := addToGroup_self acc (key x) x
      exact groupByAux_preserves rest hg hb
    · exact ih _ h

lemma groupBy_sound {key : Booking → String} {bs : List Booking} {k : String}
    {grp : List Booking} {x : Booking}
    (h : (k, grp) ∈ groupBy key bs) (hx : x ∈ grp) :
    x ∈ bs ∧ key x = k := by
  rcases groupByAux_sound h hx with hl | ⟨grp', hg, -⟩
  · exact hl
  · simp at hg

lemma groupBy_complete {key : Booking → String} {bs : List Booking} {x : Booking}
    (h : x ∈ bs) :
    ∃ grp, (key x, grp) ∈ groupBy key bs ∧ x ∈ grp :=
  groupByAux_complete [] h

/-- Claim C5 (amended): the current-guests view groups exactly the bookings
with `booking_type = "Current"`, by hostel and then by room key; but only
the sentinel `"Not found"` is normalized to `"Unknown Room"` — the other
sentinel `"Not available"` (and any other string) is kept as its own room
key. -/
theorem current_guests_grouping (bookings : List Booking) :
    (∀ hostel rooms, (hostel, rooms) ∈ display_current_guests bookings →
      ∀ rk grp, (rk, grp) ∈ rooms → ∀ b, b ∈ grp →
        b ∈ bookings ∧ b.booking_type = "Current" ∧ b.hostel = hostel
          ∧ rk = room_key b.room_type)
    ∧ (∀ b, b ∈ bookings → b.booking_type = "Current" →
        ∃ rooms grp, (b.hostel, rooms) ∈ display_current_guests bookings
          ∧ (room_key b.room_type, grp) ∈ rooms ∧ b ∈ grp)
    ∧ room_key "Not found" = "Unknown Room"
    ∧ room_key "Not available" = "Not available" := by
  refine ⟨?_, ?_, by decide, by decide⟩
  · intro hostel rooms hmem rk grp hrk b hb
    unfold display_current_guests at hmem
    simp only [List.mem_map] at hmem
    obtain ⟨q, hq, heq⟩ := hmem
    have h1 : hostel = q.1 := by
      have := congrArg Prod.fst heq
      simpa using this.symm
    have h2 : rooms = groupBy (fun b => room_key b.room_type) q.2 := by
      have := congrArg Prod.snd heq
      simpa using this.symm
    subst h1
    rw [h2] at hrk
    obtain ⟨hbq, hroom⟩ := groupBy_sound hrk hb
    obtain ⟨q1, q2⟩ := q
    obtain ⟨hqcur, hqhostel⟩ := groupBy_sound hq hbq
    rw [List.mem_filter] at hqcur
    exact ⟨hqcur.1, by simpa using hqcur.2, hqhostel, hroom.symm⟩
  · intro b hb hcur
    have hbf : b ∈ bookings.filter (fun b => b.booking_type == "Current") :=
      List.mem_filter.mpr ⟨hb, by simp [hcur]⟩
    obtain ⟨members, hm, hbm⟩ := @groupBy_complete (fun b => b.hostel) _ _ hbf
    obtain ⟨grp, hg, hbg⟩ := @groupBy_complete (fun b => room_key b.room_type) _ _ hbm
    refine ⟨groupBy (fun b => room_key b.room_type) members, grp, ?_, hg, hbg⟩
    unfold display_current_guests
    simp only [List.mem_map]
    exact ⟨(b.hostel, members), hm, rfl⟩

/-- A current booking with the `"Not available"` room sentinel (the value a
scraped booking gets when it has no conversation link). -/
def c5_na_booking : Booking :=
  { full_name := "N", package_name := "P", hostel := "Tamraght",
    price := "1", arrival_date := "2024-Jan-20", departure_date := "2024-Feb-01",
    number_of_nights := 12, number_of_guests := "2", room_type := "Not available",
    conversation_link := none, booking_type := "Current", source := none }

/-- Witness for the amended C5: the `"Not available"` booking lands in the
Tamraght group under its own `"Not available"` room key. -/
theorem current_guests_grouping_witness :
    ∃ rooms grp, ("Tamraght", rooms) ∈ display_current_guests [c5_na_booking]
      ∧ ("Not available", grp) ∈ rooms ∧ c5_na_booking ∈ grp :=
  (current_guests_grouping [c5_na_booking]).2.1 c5_na_booking
    (List.mem_singleton.mpr rfl) rfl

/-- Counterexample to C5 as stated: a `Current` booking whose room type is
the sentinel `"Not available"` is grouped under the key `"Not available"`,
not under `"Unknown Room"`. -/
theorem room_not_available_kept_as_key :
    display_current_guests [c5_na_booking]
      = [("Tamraght", [("Not available", [c5_na_booking])])]
    ∧ ("Not available" : String) ≠ "Unknown Room" := by
  refine ⟨by decide, by decide⟩
